import Mathlib

/-!
Shallow embedding of the token-verification middleware (`auth` in
`src/middleware/auth.ts`) of the media upload gateway.

The middleware:
  1. reads the `authorization` header and strips an optional
     case-insensitive `Bearer\s+` prefix (a plain regex `replace`);
  2. rejects with 401 if the resulting token string is empty/absent;
  3. decodes the token without verification (`jwt.decode`);
  4. rejects with 401 if the payload lacks a truthy `iss` or `sub`;
  5. obtains a JWKS client for the claimed issuer from a module-level
     `Map` cache (or constructs one for `<issuer>/.well-known/jwks.json`)
     and stores it back into the cache;
  6. awaits `client.getSigningKey(kid!)` (network; may throw — the
     surrounding try/catch maps any throw to a 401);
  7. calls `jwt.verify(token, publicKey, { issuer }, cb)`; on error the
     callback rejects with 401;
  8. normalizes the `aud` claim (`Array.isArray(aud) ? aud : [aud]`) and
     rejects with 401 unless it includes the literal string "media";
  9. on success sets `req.headers["x-user"] = payload.sub` and calls
     `next()`.

External collaborators (the `jsonwebtoken` decode/verify primitives and
the network-backed JWKS key fetch) are modelled as parameters of an
`AuthEnv`, with `jwt.verify`'s documented semantics (signature check
against the supplied key, issuer equality when the `issuer` option is
set, temporal validity) embedded as `jwtVerify`.
-/

/-- JavaScript `\s` whitespace characters used by the `Bearer\s+` regex
(restricted to the ASCII ones relevant here). -/
def isJsWs (c : Char) : Bool :=
  c = ' ' || c = '\t' || c = '\n' || c = '\r' || c = '\x0b' || c = '\x0c'

/-- Embedding of `authHeader.replace(/^Bearer\s+/i, '')`: if the string
starts with case-insensitive `Bearer` followed by at least one whitespace
character, drop that prefix (the `\s+` is greedy); otherwise return the
string unchanged. -/
def stripBearer (s : String) : String :=
  let l := s.data
  let pre := l.take 6
  let rest := l.drop 6
  if pre.map Char.toLower = ['b', 'e', 'a', 'r', 'e', 'r'] && isJsWs (rest.headD 'A') then
    String.mk (rest.dropWhile isJsWs)
  else
    s

/-- Unverified JWT header (`decoded.header`): the declared algorithm and
the optional key identifier. -/
structure TokenHeader where
  alg : String
  kid : Option String
  deriving DecidableEq, Repr

/-- Shape of the `aud` claim when present: a single string or an array of
strings (the TypeScript `string | string[]`). -/
inductive Aud where
  | one (s : String)
  | many (l : List String)
  deriving DecidableEq, Repr

/-- Unverified JWT claims (`decoded.payload`). Fields are `Option`s since
JSON claims may be absent; `exp`/`nbf` are seconds since epoch. -/
structure TokenPayload where
  iss : Option String
  sub : Option String
  aud : Option Aud
  exp : Option Nat
  nbf : Option Nat
  deriving DecidableEq, Repr

/-- A structurally well-formed signed token as seen after `jwt.decode`:
header, payload, and the abstraction of its cryptographic signature —
`sigKey` is the unique public key (PEM string) under which the signature
verifies, or `none` if the signature verifies under no key. -/
structure Jwt where
  header : TokenHeader
  payload : TokenPayload
  sigKey : Option String
  deriving DecidableEq, Repr

/-- JavaScript truthiness of an optional string claim (`!payload.iss`
fails for both `undefined` and the empty string). -/
def strTruthy : Option String → Bool
  | none => false
  | some s => s ≠ ""

/-- A JWKS client as configured by the middleware; its identity is its
`jwksUri` (the other construction options — `cache`, `rateLimit`,
`jwksRequestsPerMinute: 10` — do not affect the verification logic). -/
structure JwksClient where
  jwksUri : String
  deriving DecidableEq, Repr

/-- Embedding of `jwksClient({ jwksUri: issuer + "/.well-known/jwks.json", ... })`. -/
def jwksClientFor (issuer : String) : JwksClient :=
  { jwksUri := issuer ++ "/.well-known/jwks.json" }

/-- The module-level `clientCache : Map<string, JwksClient>` as an
association list keyed by issuer string. -/
abbrev ClientCache := List (String × JwksClient)

/-- Embedding of `clientCache.get(issuer)`. -/
def cacheGet (c : ClientCache) (k : String) : Option JwksClient :=
  match c with
  | [] => none
  | (k', v) :: rest => if k' = k then some v else cacheGet rest k

/-- Embedding of `clientCache.set(issuer, client)`: replace the entry for
the key if present, otherwise append it. -/
def cacheSet (c : ClientCache) (k : String) (v : JwksClient) : ClientCache :=
  match c with
  | [] => [(k, v)]
  | (k', v') :: rest => if k' = k then (k, v) :: rest else (k', v') :: cacheSet rest k v

/-- Options record passed to `jwt.verify`. The middleware builds
`{ issuer }` — note it sets no `algorithms` allow-list. -/
structure VerifyOptions where
  issuer : Option String
  algorithms : Option (List String)
  deriving DecidableEq, Repr

/-- Embedding of `jwt.verify(token, key, opts)` per the `jsonwebtoken`
contract: succeed with the payload iff the signature verifies under
`key`, the payload `iss` equals the `issuer` option when set, the token
is not expired and not used before `nbf` (zero clock skew). Algorithm
screening beyond the signature itself is a library default (the
middleware passes no `algorithms` option; see `VerifyOptions`). -/
def jwtVerify (now : Nat) (j : Jwt) (key : String) (opts : VerifyOptions) :
    Option TokenPayload :=
  if j.sigKey = some key
      && (match opts.issuer with
          | none => true
          | some i => j.payload.iss = some i)
      && (match j.payload.exp with
          | none => true
          | some e => now < e)
      && (match j.payload.nbf with
          | none => true
          | some n => n ≤ now)
  then some j.payload
  else none

/-- Embedding of `Array.isArray(aud) ? aud : [aud]`: an absent claim
becomes the one-element array `[undefined]`, a single string becomes a
one-element array, an array stays itself. -/
def normalizeAud : Option Aud → List (Option String)
  | some (Aud.many l) => l.map some
  | some (Aud.one s) => [some s]
  | none => [none]

/-- The inbound request as the middleware sees it: the `authorization`
header and the client-supplied `x-user` header (which the middleware
overwrites on success and never reads). -/
structure Request where
  authorization : Option String
  xUser : Option String
  deriving DecidableEq, Repr

/-- Terminal decision of the middleware for one request: a rejection
(`res.status(s).send(body)`) or a pass (`next()` after attaching the
subject as the `x-user` header). -/
inductive Outcome where
  | reject (status : Nat) (body : String)
  | pass (sub : String)
  deriving DecidableEq, Repr

/-- External collaborators of the middleware: `jwt.decode` (structural
parsing of the compact token string), the JWKS signing-key fetch
(`client.getSigningKey(kid)` followed by `.getPublicKey()`; `Except.error`
models a thrown/rejected promise, handled by the middleware's catch), and
the current time used by `jwt.verify`. -/
structure AuthEnv where
  dec : String → Option Jwt
  resolve : JwksClient → Option String → Except String String
  now : Nat

/-- Result of one run of the middleware: the decision, the final value of
the request's `x-user` header, whether the key resolver was invoked,
the options passed to `jwt.verify` (when reached), and the state of the
issuer-client cache after the run. -/
structure AuthResult where
  outcome : Outcome
  xUserAfter : Option String
  resolverCalled : Bool
  verifyOpts : Option VerifyOptions
  cache : ClientCache
  deriving DecidableEq, Repr

/-- Shallow embedding of the `auth` middleware, line for line. State
(the issuer-client cache) is passed explicitly; the outer try/catch is
the `Except.error` branch of the resolver call (the only awaited,
throwing operation on the path). -/
def auth (env : AuthEnv) (cache : ClientCache) (req : Request) : AuthResult :=
  match req.authorization with
  | none =>
      { outcome := .reject 401 "Authentication error: No token provided"
        xUserAfter := req.xUser, resolverCalled := false
        verifyOpts := none, cache := cache }
  | some h =>
      let token := stripBearer h
      if token = "" then
        { outcome := .reject 401 "Authentication error: No token provided"
          xUserAfter := req.xUser, resolverCalled := false
          verifyOpts := none, cache := cache }
      else
        match env.dec token with
        | none =>
            { outcome := .reject 401 "Access Denied: Invalid token format"
              xUserAfter := req.xUser, resolverCalled := false
              verifyOpts := none, cache := cache }
        | some j =>
            if !(strTruthy j.payload.iss && strTruthy j.payload.sub) then
              { outcome := .reject 401 "Access Denied: Token missing issuer or subject"
                xUserAfter := req.xUser, resolverCalled := false
                verifyOpts := none, cache := cache }
            else
              let issuer := j.payload.iss.getD ""
              let client := (cacheGet cache issuer).getD (jwksClientFor issuer)
              let cache1 := cacheSet cache issuer client
              match env.resolve client j.header.kid with
              | .error _ =>
                  { outcome := .reject 401 "Authentication error"
                    xUserAfter := req.xUser, resolverCalled := true
                    verifyOpts := none, cache := cache1 }
              | .ok publicKey =>
                  let opts : VerifyOptions := { issuer := some issuer, algorithms := none }
                  match jwtVerify env.now j publicKey opts with
                  | none =>
                      { outcome := .reject 401 "Access Denied: Invalid token"
                        xUserAfter := req.xUser, resolverCalled := true
                        verifyOpts := some opts, cache := cache1 }
                  | some vp =>
                      if (normalizeAud vp.aud).contains (some "media") then
                        { outcome := .pass (j.payload.sub.getD "")
                          xUserAfter := some (j.payload.sub.getD "")
                          resolverCalled := true
                          verifyOpts := some opts, cache := cache1 }
                      else
                        { outcome := .reject 401 "Access Denied: Invalid audience"
                          xUserAfter := req.xUser, resolverCalled := true
                          verifyOpts := some opts, cache := cache1 }

/-! Concrete fixtures used by witnesses and counterexamples. -/

/-- A well-formed token: RS256, kid `k1`, issuer/subject present,
audience the single string "media", no temporal claims, signature valid
under the key `PEMKEY`. -/
def tokGood : Jwt :=
  { header := { alg := "RS256", kid := some "k1" }
    payload := { iss := some "https://issuer.example", sub := some "alice",
                 aud := some (Aud.one "media"), exp := none, nbf := none }
    sigKey := some "PEMKEY" }

/-- An environment in which the compact string "tok" decodes to
`tokGood` and the key resolver returns `PEMKEY` for every query. -/
def envGood : AuthEnv :=
  { dec := fun s => if s = "tok" then some tokGood else none
    resolve := fun _ _ => .ok "PEMKEY"
    now := 0 }

/-- Sanity check of the embedding on a fully valid request. -/
example :
    (auth envGood [] { authorization := some "Bearer tok", xUser := none }).outcome
      = .pass "alice" := by decide

/-! Helper lemmas about the issuer-client cache. -/

/-- Looking up the key just set succeeds. -/
theorem cacheGet_cacheSet_self (c : ClientCache) (k : String) (v : JwksClient) :
    cacheGet (cacheSet c k v) k = some v := by
  induction c with
  | nil => simp [cacheSet, cacheGet]
  | cons hd tl ih =>
      obtain ⟨k', v'⟩ := hd
      by_cases hk : k' = k <;> simp [cacheSet, cacheGet, hk, ih]

/-- Setting one key never removes another key's entry. -/
theorem cacheGet_cacheSet_isSome (c : ClientCache) (k k' : String) (v : JwksClient)
    (h : (cacheGet c k').isSome) : (cacheGet (cacheSet c k v) k').isSome := by
  induction c with
  | nil => simp [cacheGet] at h
  | cons hd tl ih =>
      obtain ⟨k0, v0⟩ := hd
      by_cases h0 : k0 = k
      · by_cases h1 : k = k'
        · simp [cacheSet, cacheGet, h0, h1]
        · have h2 : ¬k0 = k' := h0 ▸ h1
          simp [cacheGet, h2] at h
          simp [cacheSet, cacheGet, h0, h1]
          exact h
      · by_cases h1 : k0 = k'
        · have h2 : ¬k' = k := h1 ▸ h0
          simp [cacheSet, cacheGet, h0, h1, h2]
        · simp [cacheGet, h1] at h
          simp [cacheSet, cacheGet, h0, h1]
          exact ih h

/-- C5: for a token with a valid signature, issuer, subject, temporal
validity, and an audience containing "media", the middleware passes the
request on and the identity attached downstream (`x-user`) equals the
token's subject claim. -/
theorem C5_valid_token_passes_with_subject
    (env : AuthEnv) (cache : ClientCache) (req : Request)
    (h : String) (j : Jwt) (s issuer key : String)
    (hauth : req.authorization = some h)
    (htok : stripBearer h ≠ "")
    (hdec : env.dec (stripBearer h) = some j)
    (hiss : j.payload.iss = some issuer) (hissne : issuer ≠ "")
    (hsub : j.payload.sub = some s) (hsubne : s ≠ "")
    (hres : env.resolve ((cacheGet cache issuer).getD (jwksClientFor issuer)) j.header.kid
              = .ok key)
    (hsig : j.sigKey = some key)
    (hexp : ∀ e, j.payload.exp = some e → env.now < e)
    (hnbf : ∀ n, j.payload.nbf = some n → n ≤ env.now)
    (haud : (normalizeAud j.payload.aud).contains (some "media") = true) :
    (auth env cache req).outcome = .pass s ∧
    (auth env cache req).xUserAfter = some s := by
  have hv : jwtVerify env.now j key { issuer := some issuer, algorithms := none }
      = some j.payload := by
    rcases he : j.payload.exp with _ | e <;> rcases hn : j.payload.nbf with _ | n <;>
      simp [jwtVerify, hsig, hiss, he, hn] <;>
      first
        | exact hexp e he
        | exact hnbf n hn
        | exact ⟨hexp e he, hnbf n hn⟩
  have haud' : some "media" ∈ normalizeAud j.payload.aud := by simpa using haud
  simp [auth, hauth, htok, hdec, hiss, hsub, strTruthy, hissne, hsubne, hres, hv, haud']

/-- C5 witness: the theorem applied to the concrete valid request. -/
theorem C5_witness :
    (auth envGood [] { authorization := some "Bearer tok", xUser := none }).outcome
        = .pass "alice" ∧
    (auth envGood [] { authorization := some "Bearer tok", xUser := none }).xUserAfter
        = some "alice" :=
  C5_valid_token_passes_with_subject envGood [] _ "Bearer tok" tokGood
    "alice" "https://issuer.example" "PEMKEY"
    rfl (by decide) (by decide) rfl (by decide) rfl (by decide) rfl rfl
    (fun e he => by simp [tokGood] at he) (fun n hn => by simp [tokGood] at hn)
    (by decide)

/-- C6: a token that passes signature verification but whose normalized
audience set does not contain the required value "media" is rejected
with 401 (the audience-rejection branch). -/
theorem C6_wrong_audience_rejected
    (env : AuthEnv) (cache : ClientCache) (req : Request)
    (h : String) (j : Jwt) (issuer key : String)
    (hauth : req.authorization = some h)
    (htok : stripBearer h ≠ "")
    (hdec : env.dec (stripBearer h) = some j)
    (hiss : j.payload.iss = some issuer) (hissne : issuer ≠ "")
    (hsubt : strTruthy j.payload.sub = true)
    (hres : env.resolve ((cacheGet cache issuer).getD (jwksClientFor issuer)) j.header.kid
              = .ok key)
    (hsig : j.sigKey = some key)
    (hexp : ∀ e, j.payload.exp = some e → env.now < e)
    (hnbf : ∀ n, j.payload.nbf = some n → n ≤ env.now)
    (haud : (normalizeAud j.payload.aud).contains (some "media") = false) :
    (auth env cache req).outcome = .reject 401 "Access Denied: Invalid audience" := by
  have hv : jwtVerify env.now j key { issuer := some issuer, algorithms := none }
      = some j.payload := by
    rcases he : j.payload.exp with _ | e <;> rcases hn : j.payload.nbf with _ | n <;>
      simp [jwtVerify, hsig, hiss, he, hn] <;>
      first
        | exact hexp e he
        | exact hnbf n hn
        | exact ⟨hexp e he, hnbf n hn⟩
  have haud' : some "media" ∉ normalizeAud j.payload.aud := by simpa using haud
  have hit : strTruthy (some issuer) = true := by simp [strTruthy, hissne]
  simp [auth, hauth, htok, hdec, hiss, hit, hsubt, hres, hv, haud']

/-- A token identical to `tokGood` except that its audience is the array
`["other"]`. -/
def tokOtherAud : Jwt :=
  { tokGood with payload := { tokGood.payload with aud := some (Aud.many ["other"]) } }

/-- An environment in which "tok" decodes to `tokOtherAud`. -/
def envOtherAud : AuthEnv :=
  { envGood with dec := fun s => if s = "tok" then some tokOtherAud else none }

/-- C6 witness: the concrete wrong-audience token is rejected. -/
theorem C6_witness :
    (auth envOtherAud [] { authorization := some "Bearer tok", xUser := none }).outcome
      = .reject 401 "Access Denied: Invalid audience" :=
  C6_wrong_audience_rejected envOtherAud [] _ "Bearer tok" tokOtherAud
    "https://issuer.example" "PEMKEY"
    rfl (by decide) (by decide) rfl (by decide) rfl rfl rfl
    (fun e he => by simp [tokOtherAud, tokGood] at he)
    (fun n hn => by simp [tokOtherAud, tokGood] at hn)
    (by decide)

/-- C9: a token that passes signature verification but carries no
audience claim at all is rejected with 401: the absent claim normalizes
to the one-element array `[undefined]`, which does not contain "media". -/
theorem C9_absent_audience_rejected
    (env : AuthEnv) (cache : ClientCache) (req : Request)
    (h : String) (j : Jwt) (issuer key : String)
    (hauth : req.authorization = some h)
    (htok : stripBearer h ≠ "")
    (hdec : env.dec (stripBearer h) = some j)
    (hiss : j.payload.iss = some issuer) (hissne : issuer ≠ "")
    (hsubt : strTruthy j.payload.sub = true)
    (hres : env.resolve ((cacheGet cache issuer).getD (jwksClientFor issuer)) j.header.kid
              = .ok key)
    (hsig : j.sigKey = some key)
    (hexp : ∀ e, j.payload.exp = some e → env.now < e)
    (hnbf : ∀ n, j.payload.nbf = some n → n ≤ env.now)
    (haud : j.payload.aud = none) :
    (auth env cache req).outcome = .reject 401 "Access Denied: Invalid audience" := by
  have hv : jwtVerify env.now j key { issuer := some issuer, algorithms := none }
      = some j.payload := by
    rcases he : j.payload.exp with _ | e <;> rcases hn : j.payload.nbf with _ | n <;>
      simp [jwtVerify, hsig, hiss, he, hn] <;>
      first
        | exact hexp e he
        | exact hnbf n hn
        | exact ⟨hexp e he, hnbf n hn⟩
  have haud' : some "media" ∉ normalizeAud j.payload.aud := by
    simp [haud, normalizeAud]
  have hit : strTruthy (some issuer) = true := by simp [strTruthy, hissne]
  simp [auth, hauth, htok, hdec, hiss, hit, hsubt, hres, hv, haud']

/-- A token identical to `tokGood` except that it has no audience claim. -/
def tokNoAud : Jwt :=
  { tokGood with payload := { tokGood.payload with aud := none } }

/-- An environment in which "tok" decodes to `tokNoAud`. -/
def envNoAud : AuthEnv :=
  { envGood with dec := fun s => if s = "tok" then some tokNoAud else none }

/-- C9 witness: the concrete audience-less token is rejected. -/
theorem C9_witness :
    (auth envNoAud [] { authorization := some "Bearer tok", xUser := none }).outcome
      = .reject 401 "Access Denied: Invalid audience" :=
  C9_absent_audience_rejected envNoAud [] _ "Bearer tok" tokNoAud
    "https://issuer.example" "PEMKEY"
    rfl (by decide) (by decide) rfl (by decide) rfl rfl rfl
    (fun e he => by simp [tokNoAud, tokGood] at he)
    (fun n hn => by simp [tokNoAud, tokGood] at hn)
    rfl

/-- C4: issuer binding. A token whose claims declare issuer `issuer` is
verified against a key resolved from that same issuer's key set (the
`verifyOpts` conjunct records that the `issuer` option passed to
`jwt.verify` is exactly the lookup issuer). If the token was validly
signed by some other party's key `k` (its signature verifies only under
`k`) while the claimed issuer's key set resolves the token's kid to a
different key, verification fails and the request is rejected with 401,
even though key resolution itself succeeded. -/
theorem C4_issuer_binding
    (env : AuthEnv) (cache : ClientCache) (req : Request)
    (h : String) (j : Jwt) (issuer k key : String)
    (hauth : req.authorization = some h)
    (htok : stripBearer h ≠ "")
    (hdec : env.dec (stripBearer h) = some j)
    (hiss : j.payload.iss = some issuer) (hissne : issuer ≠ "")
    (hsubt : strTruthy j.payload.sub = true)
    (hres : env.resolve ((cacheGet cache issuer).getD (jwksClientFor issuer)) j.header.kid
              = .ok key)
    (hsig : j.sigKey = some k)
    (hneq : key ≠ k) :
    (auth env cache req).outcome = .reject 401 "Access Denied: Invalid token" ∧
    (auth env cache req).verifyOpts = some { issuer := some issuer, algorithms := none } := by
  have hv : jwtVerify env.now j key { issuer := some issuer, algorithms := none } = none := by
    simp [jwtVerify, hsig, Ne.symm hneq]
  have hit : strTruthy (some issuer) = true := by simp [strTruthy, hissne]
  simp [auth, hauth, htok, hdec, hiss, hit, hsubt, hres, hv]

/-- An environment in which "tok" decodes to `tokGood` (signed under
`PEMKEY`) but the claimed issuer's key set resolves the kid to the
different key `OTHERKEY`. -/
def envWrongKey : AuthEnv :=
  { envGood with resolve := fun _ _ => .ok "OTHERKEY" }

/-- C4 witness: the concrete cross-issuer token is rejected even though
key resolution succeeded for its kid. -/
theorem C4_witness :
    (auth envWrongKey [] { authorization := some "Bearer tok", xUser := none }).outcome
        = .reject 401 "Access Denied: Invalid token" ∧
    (auth envWrongKey [] { authorization := some "Bearer tok", xUser := none }).verifyOpts
        = some { issuer := some "https://issuer.example", algorithms := none } :=
  C4_issuer_binding envWrongKey [] _ "Bearer tok" tokGood
    "https://issuer.example" "PEMKEY" "OTHERKEY"
    rfl (by decide) (by decide) rfl (by decide) rfl rfl rfl (by decide)

/-- The issuer-client cache after any run that gets past the
issuer/subject pre-check is exactly the input cache with the claimed
issuer's client stored (`clientCache.set` runs before the awaited key
fetch, so this holds whatever the resolver and verifier then do). -/
theorem auth_cache_after
    (env : AuthEnv) (cache : ClientCache) (req : Request)
    (h : String) (j : Jwt) (issuer : String)
    (hauth : req.authorization = some h)
    (htok : stripBearer h ≠ "")
    (hdec : env.dec (stripBearer h) = some j)
    (hiss : j.payload.iss = some issuer) (hissne : issuer ≠ "")
    (hsubt : strTruthy j.payload.sub = true) :
    (auth env cache req).cache
      = cacheSet cache issuer ((cacheGet cache issuer).getD (jwksClientFor issuer)) := by
  have hit : strTruthy (some issuer) = true := by simp [strTruthy, hissne]
  simp only [auth, hauth, hdec, hiss]
  simp [htok, hit, hsubt]
  rcases env.resolve ((cacheGet cache issuer).getD (jwksClientFor issuer)) j.header.kid
    with e | key
  · simp
  · simp
    rcases jwtVerify env.now j key { issuer := some issuer, algorithms := none }
      with _ | vp
    · simp
    · simp
      by_cases ha : some "media" ∈ normalizeAud vp.aud <;> simp [ha]

/-- C10: for every decodable token with truthy issuer and subject
claims, the cache after the run contains an entry for the claimed issuer
— even when key resolution or signature verification subsequently fails
— and no pre-existing entry is ever removed. -/
theorem C10_cache_grows
    (env : AuthEnv) (cache : ClientCache) (req : Request)
    (h : String) (j : Jwt) (issuer : String)
    (hauth : req.authorization = some h)
    (htok : stripBearer h ≠ "")
    (hdec : env.dec (stripBearer h) = some j)
    (hiss : j.payload.iss = some issuer) (hissne : issuer ≠ "")
    (hsubt : strTruthy j.payload.sub = true) :
    (cacheGet (auth env cache req).cache issuer).isSome ∧
    ∀ k, (cacheGet cache k).isSome → (cacheGet (auth env cache req).cache k).isSome := by
  have hc := auth_cache_after env cache req h j issuer hauth htok hdec hiss hissne hsubt
  rw [hc]
  constructor
  · simp [cacheGet_cacheSet_self]
  · intro k hk
    exact cacheGet_cacheSet_isSome cache issuer k _ hk

/-- An environment in which "tok" decodes to `tokGood` but the key
resolver always throws (models an unreachable or kid-less key set). -/
def envResolverFails : AuthEnv :=
  { envGood with resolve := fun _ _ => .error "SigningKeyNotFoundError" }

/-- C10 witness: after a run whose key resolution throws, the cache
holds the claimed issuer's client and keeps a pre-existing entry. -/
theorem C10_witness :
    (cacheGet
      (auth envResolverFails [("https://old.example", jwksClientFor "https://old.example")]
        { authorization := some "Bearer tok", xUser := none }).cache
      "https://issuer.example").isSome ∧
    (cacheGet
      (auth envResolverFails [("https://old.example", jwksClientFor "https://old.example")]
        { authorization := some "Bearer tok", xUser := none }).cache
      "https://old.example").isSome :=
  have h10 := C10_cache_grows envResolverFails
    [("https://old.example", jwksClientFor "https://old.example")]
    { authorization := some "Bearer tok", xUser := none }
    "Bearer tok" tokGood "https://issuer.example"
    rfl (by decide) (by decide) rfl (by decide) rfl
  ⟨h10.1, h10.2 "https://old.example" (by decide)⟩

/-- C2 (amended part): a decodable token whose issuer or subject claim
is absent or empty is rejected with the missing-claims 401 before the
key resolver is ever invoked. -/
theorem C2_missing_iss_sub_no_resolver
    (env : AuthEnv) (cache : ClientCache) (req : Request)
    (h : String) (j : Jwt)
    (hauth : req.authorization = some h)
    (htok : stripBearer h ≠ "")
    (hdec : env.dec (stripBearer h) = some j)
    (hmiss : strTruthy j.payload.iss = false ∨ strTruthy j.payload.sub = false) :
    (auth env cache req).outcome
        = .reject 401 "Access Denied: Token missing issuer or subject" ∧
    (auth env cache req).resolverCalled = false := by
  rcases hmiss with hm | hm <;> simp [auth, hauth, htok, hdec, hm]

/-- A token identical to `tokGood` except that it has no subject claim. -/
def tokNoSub : Jwt :=
  { tokGood with payload := { tokGood.payload with sub := none } }

/-- An environment in which "tok" decodes to `tokNoSub`. -/
def envNoSub : AuthEnv :=
  { envGood with dec := fun s => if s = "tok" then some tokNoSub else none }

/-- C2 witness: the concrete subject-less token is rejected without a
resolver call. -/
theorem C2_witness :
    (auth envNoSub [] { authorization := some "Bearer tok", xUser := none }).outcome
        = .reject 401 "Access Denied: Token missing issuer or subject" ∧
    (auth envNoSub [] { authorization := some "Bearer tok", xUser := none }).resolverCalled
        = false :=
  C2_missing_iss_sub_no_resolver envNoSub [] _ "Bearer tok" tokNoSub
    rfl (by decide) (by decide) (Or.inr (by decide))

/-- A token identical to `tokGood` except that its header carries no
key identifier. -/
def tokNoKid : Jwt :=
  { tokGood with header := { alg := "RS256", kid := none } }

/-- An environment in which "tok" decodes to `tokNoKid` and the key
fetch throws (`getSigningKey(undefined)` finding no key). -/
def envNoKid : AuthEnv :=
  { dec := fun s => if s = "tok" then some tokNoKid else none
    resolve := fun _ _ => .error "SigningKeyNotFoundError"
    now := 0 }

/-- C2 counterexample: for a decodable token missing only the key
identifier, the middleware does NOT fail the pre-check — it invokes the
key resolver (a network call) with the absent kid, and the eventual
rejection is the generic catch-all 401, not the missing-claims one. -/
theorem C2_counterexample :
    (auth envNoKid [] { authorization := some "Bearer tok", xUser := none }).resolverCalled
        = true ∧
    (auth envNoKid [] { authorization := some "Bearer tok", xUser := none }).outcome
        = .reject 401 "Authentication error" := by decide

/-- C3 (amended part): the no-token 401 is produced exactly when the
`authorization` header is absent or when stripping the optional
`Bearer\s+` prefix leaves the empty string, and in that case the key
resolver is never invoked. -/
theorem C3_no_token_rejected
    (env : AuthEnv) (cache : ClientCache) (req : Request)
    (hnone : req.authorization = none ∨
      ∃ s, req.authorization = some s ∧ stripBearer s = "") :
    (auth env cache req).outcome
        = .reject 401 "Authentication error: No token provided" ∧
    (auth env cache req).resolverCalled = false := by
  rcases hnone with hn | ⟨s, hs, he⟩
  · simp [auth, hn]
  · simp [auth, hs, he]

/-- C3 witness: a header consisting of `Bearer` and whitespace only. -/
theorem C3_witness :
    (auth envGood [] { authorization := some "Bearer   ", xUser := none }).outcome
        = .reject 401 "Authentication error: No token provided" ∧
    (auth envGood [] { authorization := some "Bearer   ", xUser := none }).resolverCalled
        = false :=
  C3_no_token_rejected envGood [] _ (Or.inr ⟨"Bearer   ", rfl, by decide⟩)

/-- C3 counterexample: an `Authorization` value that does not match the
`Bearer <token>` form at all (no prefix, just a raw compact token) is
not rejected with the no-token 401 — the middleware treats the whole
value as the token, invokes the key resolver, and here authenticates the
request. -/
theorem C3_counterexample :
    (auth envGood [] { authorization := some "tok", xUser := none }).outcome
        = .pass "alice" ∧
    (auth envGood [] { authorization := some "tok", xUser := none }).resolverCalled
        = true := by decide

/-- C1: the options the middleware passes to `jwt.verify` never contain
an `algorithms` allow-list — whenever the verify step is reached, the
only constraint passed is the issuer; no signing-algorithm family is
pinned by this code. -/
theorem C1_no_algorithm_pinning
    (env : AuthEnv) (cache : ClientCache) (req : Request) (o : VerifyOptions)
    (h : (auth env cache req).verifyOpts = some o) :
    o.algorithms = none := by
  simp only [auth] at h
  repeat' split at h
  all_goals (try (cases h; rfl))
  all_goals simp_all

/-- C1 witness: the options recorded at the verify step of the concrete
valid run carry no algorithms list. -/
theorem C1_witness :
    ({ issuer := some "https://issuer.example", algorithms := none }
      : VerifyOptions).algorithms = none :=
  C1_no_algorithm_pinning envGood []
    { authorization := some "Bearer tok", xUser := none } _ (by decide)

/-- C7: every rejection the middleware produces carries status 401 — on
any request, for any behavior of the decoder and the key resolver
(including thrown resolver errors, handled by the catch-all), the
middleware either passes the request on or responds 401. -/
theorem C7_uniform_401
    (env : AuthEnv) (cache : ClientCache) (req : Request)
    (s : Nat) (b : String)
    (h : (auth env cache req).outcome = .reject s b) : s = 401 := by
  simp only [auth] at h
  repeat' split at h
  all_goals simp_all

/-- C7 witness: the concrete resolver-throwing run rejects with 401. -/
theorem C7_witness : (401 : Nat) = 401 :=
  C7_uniform_401 envResolverFails []
    { authorization := some "Bearer tok", xUser := none }
    401 "Authentication error" (by decide)

/-- The middleware never reads the client-supplied `x-user` header: its
decision is the same whatever value the client pre-set there. -/
theorem auth_ignores_client_xuser
    (env : AuthEnv) (cache : ClientCache) (a u1 u2 : Option String) :
    (auth env cache { authorization := a, xUser := u1 }).outcome
      = (auth env cache { authorization := a, xUser := u2 }).outcome := by
  simp only [auth]
  repeat' split
  all_goals simp_all

/-- On a pass decision, the `x-user` header the middleware hands
downstream is exactly the subject it passed to `next()` — the
assignment `req.headers["x-user"] = payload.sub` replaces whatever was
there. -/
theorem auth_pass_xuser (env : AuthEnv) (cache : ClientCache) (req : Request) :
    ∀ s, (auth env cache req).outcome = .pass s →
      (auth env cache req).xUserAfter = some s := by
  simp only [auth]
  repeat' split
  all_goals (intro s h; simp_all)

/-- C8: on every successfully authenticated request the subject attached
for downstream use equals the verified token's subject, regardless of
any client-supplied `x-user` value — the attachment overwrites the
client value, and two requests differing only in that field yield the
same downstream identity. -/
theorem C8_subject_overwrite
    (env : AuthEnv) (cache : ClientCache) (a u1 u2 : Option String) (s : String)
    (h : (auth env cache { authorization := a, xUser := u1 }).outcome = .pass s) :
    (auth env cache { authorization := a, xUser := u1 }).xUserAfter = some s ∧
    (auth env cache { authorization := a, xUser := u2 }).outcome = .pass s ∧
    (auth env cache { authorization := a, xUser := u2 }).xUserAfter = some s := by
  have h2 : (auth env cache { authorization := a, xUser := u2 }).outcome = .pass s :=
    (auth_ignores_client_xuser env cache a u2 u1).trans h
  exact ⟨auth_pass_xuser env cache _ s h, h2, auth_pass_xuser env cache _ s h2⟩

/-- C8 witness: a client pre-setting `x-user` to "evil" gets the same
verified identity "alice" as a client sending nothing. -/
theorem C8_witness :
    (auth envGood [] { authorization := some "Bearer tok", xUser := some "evil" }).xUserAfter
        = some "alice" ∧
    (auth envGood [] { authorization := some "Bearer tok", xUser := none }).outcome
        = .pass "alice" ∧
    (auth envGood [] { authorization := some "Bearer tok", xUser := none }).xUserAfter
        = some "alice" :=
  C8_subject_overwrite envGood [] (some "Bearer tok") (some "evil") none "alice" (by decide)
